import Mathlib

/-!
Verification of the metaframe-bluetooth widget (`src/components/Bluetooth.tsx`).

The component is a Preact functional component orchestrating the browser
Bluetooth API.  We embed its pure fragments directly (the payload decoder,
key-alias resolution, characteristic sorting, base64 encoding) and model its
stateful effects (`reset`, `scan`, the server/serviceUUID effect, the
per-characteristic notification listener) as explicit functions on a component
state record, with the asynchronous platform results supplied as an
environment record.
-/

namespace Bluetooth

/-- Severity of a status-log entry (`InfoBlob.status` in the source). -/
inductive Severity where
  | info
  | error
  | warning
  | success
deriving DecidableEq, Repr

/-- Status-log entry; mirrors `type InfoBlob = \x7b title?; message?; status \x7d`. -/
structure InfoBlob where
  title : Option String := none
  message : Option String := none
  status : Option Severity
deriving DecidableEq, Repr

/-- A byte is modelled as a `Nat`; the platform guarantees values below 256. -/
abbrev Byte := Nat

/-- Exact value of an IEEE-754 binary32 number: NaN, a signed infinity, or the
exact dyadic rational `mantissa * 2 ^ exponent` with `mantissa` odd or zero
(signed zeros are identified, matching JS `===`-equal values). -/
inductive Float32Val where
  | nan
  | inf (sign : Bool)
  | finite (mantissa exponent : ℤ)
deriving DecidableEq, Repr

/-- Normalize a dyadic pair by moving factors of two from the mantissa into the
exponent; the fuel bounds the loop (24 suffices for binary32 mantissas). -/
def normalizeDyadic : Nat → ℤ → ℤ → ℤ × ℤ
  | 0, m, e => (m, e)
  | fuel + 1, m, e =>
    if m ≠ 0 ∧ m % 2 = 0 then normalizeDyadic fuel (m / 2) (e + 1) else (m, e)

/-- Decoded notification value; mirrors
`type OutputType = boolean | number[] | undefined | string` restricted to the
shapes the listener actually produces. -/
inductive OutputType where
  | undef
  | bool (b : Bool)
  | floats (xs : List Float32Val)
  | base64 (s : String)
deriving DecidableEq, Repr

/-- Assemble a 32-bit word from four bytes in little-endian order, as a
`Float32Array` view over an `ArrayBuffer` does on a little-endian platform. -/
def le32 (b0 b1 b2 b3 : Byte) : Nat :=
  b0 + 256 * b1 + 65536 * b2 + 16777216 * b3

/-- Split a byte list into consecutive 4-byte groups, each assembled
little-endian; a trailing group of fewer than 4 bytes is dropped (the decoder
only uses this on lengths divisible by 4). -/
def words32 : List Byte → List Nat
  | [] => []
  | [_] => []
  | [_, _] => []
  | [_, _, _] => []
  | b0 :: b1 :: b2 :: b3 :: rest => le32 b0 b1 b2 b3 :: words32 rest

/-- Interpret a 32-bit word as an IEEE-754 binary32 value (sign bit 31,
exponent bits 23-30, fraction bits 0-22).  A normal number with biased
exponent `e` and fraction `frac` denotes `(2^23 + frac) * 2^(e - 150)`; a
subnormal denotes `frac * 2^(-149)`; both are returned in normalized dyadic
form. -/
def float32OfWord (w : Nat) : Float32Val :=
  let signBit : Nat := w / 2 ^ 31 % 2
  let e : Nat := w / 2 ^ 23 % 256
  let frac : Nat := w % 2 ^ 23
  if e = 255 then
    if frac = 0 then Float32Val.inf (signBit == 1) else Float32Val.nan
  else
    let mag : ℤ := if e = 0 then (frac : ℤ) else 2 ^ 23 + (frac : ℤ)
    let exp : ℤ := if e = 0 then -149 else (e : ℤ) - 150
    let m : ℤ := if signBit == 1 then -mag else mag
    let p := normalizeDyadic 24 m exp
    Float32Val.finite p.1 p.2

/-- The float branch of the decoder: `Array.from(new Float32Array(buffer))`. -/
def float32List (bytes : List Byte) : List Float32Val :=
  (words32 bytes).map float32OfWord

/-- The standard base64 alphabet used by `Unibabel.bufferToBase64`. -/
def base64Chars : List Char :=
  "ABCDEFGHIJKLMNOPQRSTUVWXYZabcdefghijklmnopqrstuvwxyz0123456789+/".toList

/-- Character for a 6-bit group. -/
def b64char (n : Nat) : Char := base64Chars.getD n 'A'

/-- Standard base64 encoding of a byte sequence, with `=` padding. -/
def base64Encode : List Byte → String
  | [] => ""
  | [b0] =>
    String.mk [b64char (b0 / 4), b64char (b0 % 4 * 16), '=', '=']
  | [b0, b1] =>
    String.mk [b64char (b0 / 4), b64char (b0 % 4 * 16 + b1 / 16),
               b64char (b1 % 16 * 4), '=']
  | b0 :: b1 :: b2 :: rest =>
    String.mk [b64char (b0 / 4), b64char (b0 % 4 * 16 + b1 / 16),
               b64char (b1 % 16 * 4 + b2 / 64), b64char (b2 % 64)]
      ++ base64Encode rest

/-- The payload decoder of the notification listener (source lines 270-282):
an absent buffer stays `undefined`; a 1-byte buffer becomes the boolean
`byte === 1`; a buffer whose byte length is divisible by 4 (including 0)
becomes the float list; anything else is base64-encoded. -/
def decodeNotification : Option (List Byte) → OutputType
  | none => OutputType.undef
  | some bytes =>
    if bytes.length = 1 then OutputType.bool (bytes.headI == 1)
    else if bytes.length % 4 = 0 then OutputType.floats (float32List bytes)
    else OutputType.base64 (base64Encode bytes)

/-- A JS value stored in the hash-param options object: the option entries are
either strings (service identifier, characteristic aliases) or booleans
(`displayoutputs`). -/
inductive JsVal where
  | str (s : String)
  | bool (b : Bool)
deriving DecidableEq, Repr

/-- JS truthiness of an option value: the empty string and `false` are falsy. -/
def JsVal.truthy : JsVal → Bool
  | JsVal.str s => s != ""
  | JsVal.bool b => b

/-- Coercion a JS value undergoes when used as an object key in
`\x7b [key]: val \x7d`: strings stay, booleans become "true"/"false". -/
def JsVal.toKeyString : JsVal → String
  | JsVal.str s => s
  | JsVal.bool b => if b then "true" else "false"

/-- A JS object (ordered, duplicate-free keys) modelled as an association
list; lookup is first-match, as property access on objects built by
`Object.fromEntries`. -/
def lookupAlias (m : List (String × JsVal)) (k : String) : Option JsVal :=
  (m.find? (fun p => p.1 == k)).map Prod.snd

/-- The keyAliases effect (source lines 77-86): the alias map is the whole
options object with the entries whose KEY equals the VALUE of the configured
`serviceUUID` removed (`.filter((k) => k !== serviceUUID)` compares each key
to the service identifier string, not to the literal name "serviceUUID"). -/
def buildKeyAliases (options : List (String × JsVal)) : List (String × JsVal) :=
  let serviceUUID : Option String :=
    match lookupAlias options "serviceUUID" with
    | some (JsVal.str s) => some s
    | _ => none
  options.filter (fun p => !(some p.1 == serviceUUID))

/-- Output-key resolution in the listener (source lines 268-269):
`keyAliases && keyAliases[c.uuid] ? keyAliases![c.uuid] : c.uuid` — the alias
is used only when the alias map exists and the looked-up value is truthy. -/
def resolveOutputKey (keyAliases : Option (List (String × JsVal)))
    (uuid : String) : String :=
  match keyAliases with
  | none => uuid
  | some m =>
    match lookupAlias m uuid with
    | some v => if v.truthy then v.toKeyString else uuid
    | none => uuid

/-- Connection lifecycle state; mirrors `enum State`. -/
inductive State where
  | Begin
  | Scanning
  | Connecting
  | ChoosingService
  | GettingService
  | GettingCharacteristics
  | FinishedSuccess
  | FinishedError
deriving DecidableEq, Repr

/-- A GATT server handle (`BluetoothRemoteGATTServer`), abstracted to an
identifier. -/
structure GATTServer where
  id : String
deriving DecidableEq, Repr

/-- A GATT service handle (`BluetoothRemoteGATTService`). -/
structure GATTService where
  uuid : String
deriving DecidableEq, Repr

/-- A GATT characteristic handle (`BluetoothRemoteGATTCharacteristic`),
abstracted to its uuid; the notification payload is passed to the listener
separately (it is read from `c.value` at event time). -/
structure Characteristic where
  uuid : String
deriving DecidableEq, Repr

/-- The component state relevant to the connection lifecycle: the five
`useState` cells `bluetoothState`, `server`, `service`, `characteristics`,
`info`. -/
structure CompState where
  bluetoothState : State
  server : Option GATTServer
  service : Option GATTService
  characteristics : List Characteristic
  info : List InfoBlob
deriving DecidableEq, Repr

/-- The `reset` callback (source lines 118-127): clears the session handles,
the characteristic set and the status log, and returns to `Begin`. -/
def reset (s : CompState) : CompState :=
  { s with
    service := none
    server := none
    characteristics := []
    info := []
    bluetoothState := State.Begin }

/-- The effect on `[serviceUUID]` (source lines 130-132): any change to the
configured service identifier invokes `reset`. -/
def onServiceUUIDChange (s : CompState) : CompState := reset s

/-- Lexicographic comparison of character lists by code point; this is the
order JS `<`/`>` induces on (BMP) strings. -/
def charListLt : List Char → List Char → Bool
  | [], [] => false
  | [], _ :: _ => true
  | _ :: _, [] => false
  | c :: cs, d :: ds =>
    if c.toNat < d.toNat then true
    else if d.toNat < c.toNat then false
    else charListLt cs ds

/-- String comparison `a < b` as JS performs it on uuid strings. -/
def strLt (a b : String) : Bool := charListLt a.data b.data

/-- Insertion of a characteristic into a list sorted by uuid ascending. -/
def insertByUuid (c : Characteristic) : List Characteristic → List Characteristic
  | [] => [c]
  | d :: rest =>
    if strLt c.uuid d.uuid then c :: d :: rest else d :: insertByUuid c rest

/-- The characteristic sort (source lines 240-242):
`sort((a, b) => a.uuid > b.uuid ? 1 : b.uuid > a.uuid ? -1 : 0)`, i.e. a
stable sort by uuid ascending, embodied as insertion sort. -/
def sortCharacteristics : List Characteristic → List Characteristic
  | [] => []
  | c :: rest => insertByUuid c (sortCharacteristics rest)

/-- Results of the asynchronous platform calls made by the server effect:
`getPrimaryService`, `getCharacteristics`, and the per-characteristic
`startNotifications` (`true` = the promise fulfils). -/
structure GattEnv where
  primaryService : Except String GATTService
  chars : Except String (List Characteristic)
  notifyOk : Characteristic → Bool

/-- The body of the async IIFE in the server/serviceUUID effect (source lines
226-252), applied to whatever component state holds when its writes land.
On `getPrimaryService` success it stores the service and moves to
`GettingCharacteristics`; it then stores the sorted characteristics; if every
`startNotifications` fulfils, it moves to `FinishedSuccess` and replaces the
status log wholesale with one success entry.  On any rejection the catch sets
`FinishedError` (its `appendInfo` writes only a local array, never `setInfo`). -/
def asyncSessionBody (env : GattEnv) (s : CompState) : CompState :=
  match env.primaryService with
  | Except.error _ => { s with bluetoothState := State.FinishedError }
  | Except.ok svc =>
    let s := { s with
      bluetoothState := State.GettingCharacteristics
      service := some svc }
    match env.chars with
    | Except.error _ => { s with bluetoothState := State.FinishedError }
    | Except.ok cs =>
      let sorted := sortCharacteristics cs
      let s := { s with characteristics := sorted }
      if sorted.all env.notifyOk then
        { s with
          bluetoothState := State.FinishedSuccess
          info := [{ message := some "Connected", status := some Severity.success }] }
      else { s with bluetoothState := State.FinishedError }

/-- JS falsiness of the optional service identifier string
(`!serviceUUID`): absent or empty. -/
def strFalsy : Option String → Bool
  | none => true
  | some s => s == ""

/-- The server/serviceUUID effect (source lines 216-253): it returns at once
unless a server handle is stored and the service identifier is truthy, and
otherwise runs the async session body. -/
def runServerEffect (serviceUUID : Option String) (env : GattEnv)
    (s : CompState) : CompState :=
  if s.server.isNone || strFalsy serviceUUID then s
  else asyncSessionBody env s

/-- Status-log entry with severity `info`. -/
def mkInfo (m : String) : InfoBlob := { message := some m, status := some Severity.info }

/-- Status-log entry with severity `error`. -/
def mkError (m : String) : InfoBlob := { message := some m, status := some Severity.error }

/-- Rendering of the optional service identifier inside a template literal:
`undefined` when absent. -/
def showServiceUUID : Option String → String
  | none => "undefined"
  | some s => s

/-- Outcome of the synchronous prefix of `scan`, up to its first suspension
point: the component state it left behind and whether
`navigator.bluetooth.requestDevice` was reached. -/
structure ScanOutcome where
  comp : CompState
  deviceRequested : Bool
deriving DecidableEq, Repr

/-- The `scan` callback up to its first await (source lines 134-171):
`reset`, enter `Scanning`, log "scanning...", and if the platform lacks
`navigator.bluetooth` enter `FinishedError`, append one error entry and
return without requesting a device; otherwise append the requesting entry
and proceed to the device request. -/
def scan (hasBluetooth : Bool) (serviceUUID : Option String)
    (s : CompState) : ScanOutcome :=
  let s := reset s
  let s := { s with bluetoothState := State.Scanning }
  let blobs := [mkInfo "scanning..."]
  let s := { s with info := blobs }
  if !hasBluetooth then
    let blobs := blobs ++
      [mkError "Browser does not support bluetooth https://caniuse.com/#feat=web-bluetooth"]
    { comp := { s with bluetoothState := State.FinishedError, info := blobs }
      deviceRequested := false }
  else
    let blobs := blobs ++
      [mkInfo ("Requesting Bluetooth Device...serviceUUID=" ++ showServiceUUID serviceUUID)]
    { comp := { s with info := blobs }, deviceRequested := true }

/-- Number of status-log entries with severity `error`. -/
def errorCount (log : List InfoBlob) : Nat :=
  (log.filter (fun b => b.status == some Severity.error)).length

/-- An observable action performed by the notification listener: the state
setters it could call, the host publication `metaframe.setOutputs`, the
diagnostic-table render path, and `console.error`. -/
inductive Action where
  | setBluetoothState (st : State)
  | setServer (v : Option GATTServer)
  | setService (v : Option GATTService)
  | setCharacteristics (cs : List Characteristic)
  | setInfo (log : List InfoBlob)
  | publish (key : String) (val : OutputType)
  | render (key : String) (val : OutputType)
  | consoleError (msg : String)
deriving DecidableEq, Repr

/-- Effect of an action on the connection-relevant component state: the five
setters write their cell; publication, the diagnostic render path and
`console.error` touch none of it. -/
def applyAction (s : CompState) : Action → CompState
  | Action.setBluetoothState st => { s with bluetoothState := st }
  | Action.setServer v => { s with server := v }
  | Action.setService v => { s with service := v }
  | Action.setCharacteristics cs => { s with characteristics := cs }
  | Action.setInfo log => { s with info := log }
  | Action.publish _ _ => s
  | Action.render _ _ => s
  | Action.consoleError _ => s

/-- Whether an action is a host publication. -/
def Action.isPublish : Action → Bool
  | Action.publish _ _ => true
  | _ => false

/-- The per-event notification listener (source lines 266-298) as the list of
actions it performs.  `thrown = some e` models the body throwing `e`
(a decode failure): the catch logs it via `console.error` and nothing else
happens.  Otherwise the listener resolves the output key, decodes the
payload, publishes the single-entry mapping, and, when `displayoutputs` is
set, also updates the diagnostic table. -/
def listener (keyAliases : Option (List (String × JsVal)))
    (displayoutputs : Bool) (c : Characteristic)
    (value : Option (List Byte)) (thrown : Option String) : List Action :=
  match thrown with
  | some e => [Action.consoleError e]
  | none =>
    let key := resolveOutputKey keyAliases c.uuid
    let val := decodeNotification value
    [Action.publish key val] ++
      (if displayoutputs then [Action.render key val] else [])

/-- A sample mid-session component state: server and service handles stored,
subscription in flight. -/
def sessionInFlight : CompState :=
  { bluetoothState := State.GettingCharacteristics
    server := some { id := "device1" }
    service := some { uuid := "svc1" }
    characteristics := []
    info := [mkInfo "scanning..."] }

/-- A sample platform environment where every call succeeds and two
characteristics with identifiers "b" and "a" are enumerated, in that order. -/
def happyEnv : GattEnv :=
  { primaryService := Except.ok { uuid := "svc1" }
    chars := Except.ok [{ uuid := "b" }, { uuid := "a" }]
    notifyOk := fun _ => true }

/-- A sample options object with a service identifier, the diagnostics flag
set, and one characteristic alias. -/
def sampleOptions : List (String × JsVal) :=
  [("serviceUUID", JsVal.str "1234"), ("displayoutputs", JsVal.bool true),
   ("uuid1", JsVal.str "temperature")]

end Bluetooth

namespace Bluetooth

/-- Claim C5: a payload of length exactly 1 decodes to the boolean that is
true iff the single byte equals 1. -/
theorem decode_length1_boolean (b : Byte) :
    decodeNotification (some [b]) = OutputType.bool (b == 1) := rfl

/-- Claim C1 counterexample: a length-0 payload satisfies `0 % 4 === 0` and
therefore decodes to the empty float sequence, not to the base64 encoding of
the empty byte sequence as the claim states. -/
theorem empty_payload_decodes_to_floats :
    decodeNotification (some []) = OutputType.floats [] ∧
    decodeNotification (some []) ≠ OutputType.base64 (base64Encode []) := by
  decide

/-- Claim C1 (amended): for payloads whose length is neither 1 nor a multiple
of 4 (lengths 2, 3, 5, 6, 7, 9, ...) the decoder returns the base64 encoding
of exactly the input bytes; length 0 is excluded, as it takes the float
branch. -/
theorem decode_base64_branch (bytes : List Byte)
    (h1 : bytes.length ≠ 1) (h4 : bytes.length % 4 ≠ 0) :
    decodeNotification (some bytes) =
      OutputType.base64 (base64Encode bytes) := by
  simp [decodeNotification, h1, h4]

/-- Witness for the amended C1 theorem at the concrete payload [7, 7]. -/
theorem decode_base64_branch_witness :
    decodeNotification (some [7, 7]) = OutputType.base64 (base64Encode [7, 7]) :=
  decode_base64_branch [7, 7] (by decide) (by decide)

/-- Length of the word list: one word per full 4-byte group. -/
theorem words32_length (bytes : List Byte) :
    (words32 bytes).length = bytes.length / 4 := by
  induction bytes using words32.induct with
  | case1 => rfl
  | case2 _ => simp [words32]
  | case3 _ _ => simp [words32]
  | case4 _ _ _ => simp [words32]
  | case5 b0 b1 b2 b3 rest ih => simp [words32, ih]; omega

/-- Dropping four leading entries of a list shifts `getD` by four. -/
theorem getD_cons4 (b0 b1 b2 b3 : Byte) (l : List Byte) (n : Nat) :
    (b0 :: b1 :: b2 :: b3 :: l).getD (n + 4) 0 = l.getD n 0 := rfl

/-- The i-th word is assembled little-endian from bytes 4i..4i+3. -/
theorem words32_get (bytes : List Byte) :
    ∀ i : Nat, 4 * i + 3 < bytes.length →
      (words32 bytes).get? i =
        some (le32 (bytes.getD (4 * i) 0) (bytes.getD (4 * i + 1) 0)
          (bytes.getD (4 * i + 2) 0) (bytes.getD (4 * i + 3) 0)) := by
  induction bytes using words32.induct with
  | case1 =>
    intro i hi; simp only [List.length_nil] at hi; omega
  | case2 _ =>
    intro i hi; simp only [List.length_cons, List.length_nil] at hi; omega
  | case3 _ _ =>
    intro i hi; simp only [List.length_cons, List.length_nil] at hi; omega
  | case4 _ _ _ =>
    intro i hi; simp only [List.length_cons, List.length_nil] at hi; omega
  | case5 b0 b1 b2 b3 rest ih =>
    intro i hi
    cases i with
    | zero => rfl
    | succ j =>
      have e3 : 4 * (j + 1) + 3 = 4 * j + 3 + 4 := by ring
      have e2 : 4 * (j + 1) + 2 = 4 * j + 2 + 4 := by ring
      have e1 : 4 * (j + 1) + 1 = 4 * j + 1 + 4 := by ring
      have e0 : 4 * (j + 1) = 4 * j + 4 := by ring
      rw [e3, e2, e1, e0, getD_cons4, getD_cons4, getD_cons4, getD_cons4]
      have hj : 4 * j + 3 < rest.length := by
        simp only [List.length_cons] at hi; omega
      simpa [words32, List.get?_cons_succ] using ih j hj

/-- Claim C6: a payload whose length is a positive multiple of 4 decodes to
the float branch, yielding exactly length/4 values, the i-th reconstructed as
a binary32 value from the little-endian word over bytes 4i..4i+3. -/
theorem decode_positive_multiple_of_4 (bytes : List Byte) (k : Nat)
    (hk : 0 < k) (hlen : bytes.length = 4 * k) :
    decodeNotification (some bytes) = OutputType.floats (float32List bytes) ∧
    (float32List bytes).length = k ∧
    (∀ i, i < k → (float32List bytes).get? i =
      some (float32OfWord (le32 (bytes.getD (4 * i) 0) (bytes.getD (4 * i + 1) 0)
        (bytes.getD (4 * i + 2) 0) (bytes.getD (4 * i + 3) 0)))) := by
  have h1 : bytes.length ≠ 1 := by omega
  have h4 : bytes.length % 4 = 0 := by omega
  refine ⟨by simp [decodeNotification, h1, h4], ?_, ?_⟩
  · rw [float32List, List.length_map, words32_length, hlen]
    omega
  · intro i hi
    rw [float32List, List.get?_map, words32_get bytes i (by omega)]
    rfl

/-- Witness for the C6 theorem at the payload [0, 0, 128, 63]
(little-endian 1.0f). -/
theorem decode_positive_multiple_of_4_witness :
    decodeNotification (some [0, 0, 128, 63]) =
      OutputType.floats (float32List [0, 0, 128, 63]) ∧
    (float32List [0, 0, 128, 63]).length = 1 :=
  ⟨(decode_positive_multiple_of_4 [0, 0, 128, 63] 1 (by decide) (by decide)).1,
   (decode_positive_multiple_of_4 [0, 0, 128, 63] 1 (by decide) (by decide)).2.1⟩

/-- The spec scenario: the 4-byte payload [0, 0, 128, 63] decodes to the
single float 1.0 (mantissa 1, exponent 0). -/
theorem decode_one_float_example :
    decodeNotification (some [0, 0, 128, 63]) =
      OutputType.floats [Float32Val.finite 1 0] := by decide

/-- Claim C3: invoking scan when the platform lacks the Bluetooth capability
ends in FinishedError, with a status log holding the scanning entry plus
exactly one error entry, and no device request is attempted. -/
theorem scan_without_capability (s : CompState) (serviceUUID : Option String) :
    (scan false serviceUUID s).comp.bluetoothState = State.FinishedError ∧
    (scan false serviceUUID s).comp.info =
      [mkInfo "scanning...",
       mkError "Browser does not support bluetooth https://caniuse.com/#feat=web-bluetooth"] ∧
    errorCount (scan false serviceUUID s).comp.info = 1 ∧
    (scan false serviceUUID s).deviceRequested = false :=
  ⟨rfl, rfl, rfl, rfl⟩

/-- Claim C7: changing the configured service identifier invokes reset, which
leaves state Begin, an empty status log, an empty characteristic set and no
stored session handles, from any non-Begin state. -/
theorem serviceUUID_change_resets (s : CompState)
    (h : s.bluetoothState ≠ State.Begin) :
    (onServiceUUIDChange s).bluetoothState = State.Begin ∧
    (onServiceUUIDChange s).info = [] ∧
    (onServiceUUIDChange s).characteristics = [] ∧
    (onServiceUUIDChange s).server = none ∧
    (onServiceUUIDChange s).service = none :=
  ⟨rfl, rfl, rfl, rfl, rfl⟩

/-- Witness for the C7 theorem at the sample mid-session state. -/
theorem serviceUUID_change_resets_witness :
    (onServiceUUIDChange sessionInFlight).bluetoothState = State.Begin ∧
    (onServiceUUIDChange sessionInFlight).info = [] ∧
    (onServiceUUIDChange sessionInFlight).characteristics = [] ∧
    (onServiceUUIDChange sessionInFlight).server = none ∧
    (onServiceUUIDChange sessionInFlight).service = none :=
  serviceUUID_change_resets sessionInFlight (by decide)

/-- Claim C2: when the server and a truthy service identifier are present,
the service resolves, characteristics "b" and "a" are enumerated, and every
notification subscription fulfils, the stored characteristic set is
["a", "b"], the state is FinishedSuccess, and the status log is replaced
wholesale by exactly one success entry. -/
theorem session_success_sorted_single_entry
    (s : CompState) (srv : GATTServer) (uuid : String) (env : GattEnv)
    (svc : GATTService)
    (hserver : s.server = some srv) (huuid : uuid ≠ "")
    (hsvc : env.primaryService = Except.ok svc)
    (hchars : env.chars = Except.ok [{ uuid := "b" }, { uuid := "a" }])
    (hnotify : ∀ c, env.notifyOk c = true) :
    (runServerEffect (some uuid) env s).characteristics =
      [{ uuid := "a" }, { uuid := "b" }] ∧
    (runServerEffect (some uuid) env s).bluetoothState = State.FinishedSuccess ∧
    (runServerEffect (some uuid) env s).info =
      [{ message := some "Connected", status := some Severity.success }] := by
  have hsrv : s.server.isNone = false := by simp [hserver]
  have hfalsy : strFalsy (some uuid) = false := by simp [strFalsy, huuid]
  have hba : strLt "b" "a" = false := by decide
  simp [runServerEffect, hsrv, hfalsy, asyncSessionBody, hsvc, hchars,
    sortCharacteristics, insertByUuid, hba, hnotify]

/-- Witness for the C2 theorem at the sample state and environment. -/
theorem session_success_sorted_single_entry_witness :
    (runServerEffect (some "1234") happyEnv sessionInFlight).characteristics =
      [{ uuid := "a" }, { uuid := "b" }] ∧
    (runServerEffect (some "1234") happyEnv sessionInFlight).bluetoothState =
      State.FinishedSuccess ∧
    (runServerEffect (some "1234") happyEnv sessionInFlight).info =
      [{ message := some "Connected", status := some Severity.success }] :=
  session_success_sorted_single_entry sessionInFlight { id := "device1" } "1234"
    happyEnv { uuid := "svc1" } rfl (by decide) rfl rfl (fun _ => rfl)

/-- Claim C4, evaluated against the code: reset does move the state to Begin
at once, but the stale async continuation of the in-flight
subscription — which has no generation guard — later lands its writes on the
reset state, resurrecting FinishedSuccess and repopulating the characteristic
set from the discarded session. -/
theorem stale_session_resurrected :
    (reset sessionInFlight).bluetoothState = State.Begin ∧
    (asyncSessionBody happyEnv (reset sessionInFlight)).bluetoothState =
      State.FinishedSuccess ∧
    (asyncSessionBody happyEnv (reset sessionInFlight)).characteristics =
      [{ uuid := "a" }, { uuid := "b" }] := by
  decide

/-- Claim C9: when the per-event listener body throws, the catch logs the
error to the console diagnostic channel as its only action, and folding the
listener actions over any component state leaves the connection state, the
stored handles and the characteristic set unchanged. -/
theorem listener_catch_preserves_state
    (keyAliases : Option (List (String × JsVal))) (displayoutputs : Bool)
    (c : Characteristic) (value : Option (List Byte)) (e : String)
    (s : CompState) :
    listener keyAliases displayoutputs c value (some e) =
      [Action.consoleError e] ∧
    (listener keyAliases displayoutputs c value (some e)).foldl applyAction s = s :=
  ⟨rfl, rfl⟩

/-- Claim C8 counterexample: with the empty string configured as the alias of
"uuidX", the listener publishes under the raw identifier "uuidX", not under
the configured alias, because the empty string is falsy. -/
theorem alias_empty_string_not_used :
    listener (some [("uuidX", JsVal.str "")]) false { uuid := "uuidX" }
      (some [7, 7]) none =
      [Action.publish "uuidX" (OutputType.base64 "Bwc=")] ∧
    ("uuidX" : String) ≠ "" := by decide

/-- Claim C8 (amended): the listener publishes a single-entry mapping whose
key is the resolved output key; the key equals the raw identifier when no
alias is configured or when the configured alias is the empty string, and
equals the alias when a non-empty alias string is configured. -/
theorem publish_key_resolution (m : List (String × JsVal)) (dout : Bool)
    (c : Characteristic) (value : Option (List Byte)) :
    (listener (some m) dout c value none).filter Action.isPublish =
      [Action.publish (resolveOutputKey (some m) c.uuid)
        (decodeNotification value)] ∧
    (lookupAlias m c.uuid = none → resolveOutputKey (some m) c.uuid = c.uuid) ∧
    (∀ a : String, a ≠ "" → lookupAlias m c.uuid = some (JsVal.str a) →
      resolveOutputKey (some m) c.uuid = a) ∧
    (lookupAlias m c.uuid = some (JsVal.str "") →
      resolveOutputKey (some m) c.uuid = c.uuid) := by
  refine ⟨?_, ?_, ?_, ?_⟩
  · cases dout <;> simp [listener, Action.isPublish]
  · intro h; simp [resolveOutputKey, h]
  · intro a ha h; simp [resolveOutputKey, h, JsVal.truthy, ha, JsVal.toKeyString]
  · intro h; simp [resolveOutputKey, h, JsVal.truthy]

/-- Witness for the amended C8 theorem: alias "temperature" for "uuid1". -/
theorem publish_key_resolution_witness :
    resolveOutputKey (some [("uuid1", JsVal.str "temperature")]) "uuid1" =
      "temperature" :=
  (publish_key_resolution [("uuid1", JsVal.str "temperature")] false
    { uuid := "uuid1" } none).2.2.1 "temperature" (by decide) rfl

/-- Lookup of a key commutes with filtering when the filter keeps every entry
bearing that key. -/
theorem lookupAlias_filter (l : List (String × JsVal))
    (q : String × JsVal → Bool) (k : String) (hq : ∀ v, q (k, v) = true) :
    lookupAlias (l.filter q) k = lookupAlias l k := by
  induction l with
  | nil => rfl
  | cons p rest ih =>
    obtain ⟨a, v⟩ := p
    by_cases hak : a = k
    · subst hak
      rw [List.filter_cons_of_pos (hq v)]
      simp only [lookupAlias]
      rw [List.find?_cons_of_pos _ (by simp), List.find?_cons_of_pos _ (by simp)]
    · have hpred : ¬ ((fun p : String × JsVal => p.1 == k) (a, v) = true) := by
        simp [hak]
      by_cases hqv : q (a, v) = true
      · rw [List.filter_cons_of_pos hqv]
        simp only [lookupAlias]
        rw [@List.find?_cons_of_neg _ (fun p : String × JsVal => p.1 == k) (a, v)
              (List.filter q rest) hpred,
            @List.find?_cons_of_neg _ (fun p : String × JsVal => p.1 == k) (a, v)
              rest hpred]
        exact ih
      · rw [List.filter_cons_of_neg hqv]
        simp only [lookupAlias]
        rw [@List.find?_cons_of_neg _ (fun p : String × JsVal => p.1 == k) (a, v)
              rest hpred]
        exact ih

/-- Claim C10 counterexample: with configuration serviceUUID = "1234" and
displayoutputs = false, the entry keyed "displayoutputs" does remain in the
alias mapping, but a characteristic whose raw identifier is "displayoutputs"
is published under its raw identifier (false is falsy), not under that
configuration entry's value. -/
theorem displayoutputs_false_published_raw :
    lookupAlias (buildKeyAliases
        [("serviceUUID", JsVal.str "1234"), ("displayoutputs", JsVal.bool false)])
      "displayoutputs" = some (JsVal.bool false) ∧
    resolveOutputKey (some (buildKeyAliases
        [("serviceUUID", JsVal.str "1234"), ("displayoutputs", JsVal.bool false)]))
      "displayoutputs" = "displayoutputs" ∧
    ("displayoutputs" : String) ≠ "false" := by decide

/-- Claim C10 (amended): the alias mapping removes exactly the entries whose
key equals the configured service identifier's value, so (when that value is
not itself one of the literal keys) the entries keyed "serviceUUID" and
"displayoutputs" remain; a characteristic whose raw identifier is
"serviceUUID" is published under the configured identifier's value when that
value is non-empty, and one whose identifier is "displayoutputs" is published
under "true" when the flag is true but under its raw identifier when the flag
is false. -/
theorem alias_map_keeps_config_entries (opts : List (String × JsVal))
    (su : String)
    (hsu : lookupAlias opts "serviceUUID" = some (JsVal.str su))
    (h1 : su ≠ "serviceUUID") (h2 : su ≠ "displayoutputs") :
    lookupAlias (buildKeyAliases opts) "serviceUUID" = some (JsVal.str su) ∧
    lookupAlias (buildKeyAliases opts) "displayoutputs" =
      lookupAlias opts "displayoutputs" ∧
    (su ≠ "" → resolveOutputKey (some (buildKeyAliases opts)) "serviceUUID" = su) ∧
    (lookupAlias opts "displayoutputs" = some (JsVal.bool true) →
      resolveOutputKey (some (buildKeyAliases opts)) "displayoutputs" = "true") ∧
    (lookupAlias opts "displayoutputs" = some (JsVal.bool false) →
      resolveOutputKey (some (buildKeyAliases opts)) "displayoutputs" =
        "displayoutputs") := by
  have hb : buildKeyAliases opts =
      opts.filter (fun p => !(some p.1 == some su)) := by
    simp [buildKeyAliases, hsu]
  have h1s : ("serviceUUID" : String) ≠ su := fun hh => h1 hh.symm
  have h2s : ("displayoutputs" : String) ≠ su := fun hh => h2 hh.symm
  have hq1 : ∀ v : JsVal,
      ((fun p : String × JsVal => !(some p.1 == some su)) ("serviceUUID", v)) = true := by
    intro v; simp [h1s]
  have hq2 : ∀ v : JsVal,
      ((fun p : String × JsVal => !(some p.1 == some su)) ("displayoutputs", v)) = true := by
    intro v; simp [h2s]
  have l1 : lookupAlias (buildKeyAliases opts) "serviceUUID" =
      some (JsVal.str su) := by
    rw [hb, lookupAlias_filter opts _ "serviceUUID" hq1]; exact hsu
  have l2 : lookupAlias (buildKeyAliases opts) "displayoutputs" =
      lookupAlias opts "displayoutputs" := by
    rw [hb, lookupAlias_filter opts _ "displayoutputs" hq2]
  refine ⟨l1, l2, ?_, ?_, ?_⟩
  · intro hne
    simp [resolveOutputKey, l1, JsVal.truthy, hne, JsVal.toKeyString]
  · intro hd
    simp [resolveOutputKey, l2.trans hd, JsVal.truthy, JsVal.toKeyString]
  · intro hd
    simp [resolveOutputKey, l2.trans hd, JsVal.truthy]

/-- Witness for the amended C10 theorem at the sample options. -/
theorem alias_map_keeps_config_entries_witness :
    resolveOutputKey (some (buildKeyAliases sampleOptions)) "displayoutputs" =
      "true" :=
  (alias_map_keeps_config_entries sampleOptions "1234" rfl (by decide)
    (by decide)).2.2.2.1 rfl

end Bluetooth
